import Mathlib

/-!
Verification development for the page-saving orchestration layer of the
zotero-connectors repository (src/common/inject/pageSaving.js).

The JavaScript module is a coordination object `PageSaving` holding two pieces
of per-page state (`sessionDetails`, `translators`) and delegating the actual
work to external collaborators (the translation engine, the item saver, the
connector client, the messaging facade).  We embed it shallowly:

* `PageSaving` is the state record (the two mutable fields of the JS object).
* `Env` packages the ambient page data (document location, title, content
  type, platform flags) together with the outcomes of the external
  collaborator calls (detection, translate-and-save, saveSnapshot, SingleFile,
  server-side save).  Each outcome is an `Except` value: `.error` models the
  JS call rejecting/throwing, `.ok` models it resolving.
* Every operation returns its new state, a trace (`List Ev`) of the messages
  sent through `Zotero.Messaging.sendMessage` and of the external calls made,
  and its own result as an `Except` (`.error` models the JS function
  rethrowing).  Trace events `Ev.sessionInit` / `Ev.sessionClear` instrument
  the call sites of the `_initSession` / `_clearSession` helpers.
-/

/-- Items produced by the translate-and-save pipeline; their structure is
external to this module, so they are opaque tokens here. -/
abbrev Items := List String

/-- A translator descriptor as used by this module: an opaque record of which
only `translatorID`, `label` and `itemType` are read. -/
structure Translator where
  translatorID : String
  label : String
  itemType : Option String := none
deriving DecidableEq, Repr

/-- The `options` object passed to the save entry points; only the fields this
module reads are modelled.  `note` is a string or absent (JS truthiness of a
string also treats the empty string as false, see `strTruthy`); `snapshot`
distinguishes absent (`none`) from an explicit boolean, because
`saveAsWebpage` applies a destructuring default only when it is absent. -/
structure SaveOptions where
  note : Option String := none
  resave : Bool := false
  fallbackOnFailure : Bool := false
  snapshot : Option Bool := none
deriving DecidableEq, Repr

/-- The session record stored in `PageSaving.sessionDetails` by
`_initSession`: `{id, url, translatorID, saveOptions}`.  `saveOptions` is an
`Option` because the `Object.assign` in `saveAsWebpage` does not write that
key, so a session written into an empty `sessionDetails` would lack it. -/
structure Session where
  id : String
  url : String
  translatorID : String
  saveOptions : Option SaveOptions := none
deriving DecidableEq, Repr

/-- The mutable state of the JS `PageSaving` object: `sessionDetails` (an
empty object, modelled `none`, or one session) and the cached translator
list. -/
structure PageSaving where
  sessionDetails : Option Session := none
  translators : List Translator := []
deriving DecidableEq, Repr

/-- A JS exception as observed by this module: its string rendering
(`e.toString()`), its `status` field when present, and its `value` field
(`none` models a falsy `e.value`; the inner option is
`e.value.libraryEditable`). -/
structure JSError where
  msg : String := ""
  status : Option Int := none
  value : Option (Option Bool) := none
deriving DecidableEq, Repr

/-- The response of the `saveSnapshot` / `saveSingleFile` connector calls, as
read by `saveAsWebpage`: only `saveSingleFile` and `attachments` (a list of
attachment titles) are consulted.  A falsy response is modelled by wrapping
this record in an outer `Option` at use sites. -/
structure SnapResult where
  saveSingleFile : Bool := false
  attachments : Option (List String) := none
deriving DecidableEq, Repr

/-- A message sent through `Zotero.Messaging.sendMessage`.  Payloads are kept
to the fields that distinguish the send sites; `showDelayed` is the
`progressWindow.show` scheduled via `setTimeout` in `onTranslate`, recorded at
its scheduling point with its delay. -/
inductive Msg where
  | show (sessionID : String)
  | showDelayed (sessionID : String) (delayMs : Nat)
  | itemProgress (sessionID : Option String) (title : String) (progress : Option Int)
  | sessionCreated (sessionID : String)
  | error (kind : String) (arg1 : String) (arg2 : String)
  | done (success : Bool) (extra : List String)
deriving DecidableEq, Repr

/-- A trace event: either a message send, an instrumented session-state
helper call, or a call to an external collaborator. -/
inductive Ev where
  | msg (m : Msg)
  | sessionInit (sess : Session)
  | sessionClear
  | callTranslateAndSave (sessionID : String) (translators : List Translator)
  | callSaveSnapshot (sessionID : String) (skipSnapshot : Bool) (pdf : Bool)
  | callSaveSingleFile (sessionID : String)
  | callServerSave
  | callDetect
  | callOnTranslators (count : Nat)
  | callOnPDFFrame
  | logged (msg : String)
deriving DecidableEq, Repr

/-- The ambient environment of one operation: document data, platform flags,
and the outcomes of the external collaborator calls. -/
structure Env where
  href : String
  title : String := ""
  contentTypePdf : Bool := false
  isSafari : Bool := false
  isTopWindow : Bool := true
  serverOK : Bool := true
  randomString : String := "a1b2c3d4"
  detectResult : Except String (List Translator) := .ok []
  translateAndSaveResult : List Translator → Except String Items := fun _ => .ok []
  saveSnapshotResult : Except JSError (Option SnapResult) := .ok none
  singleFileData : Except Unit String := .ok ""
  saveSingleFileResult : Except JSError (Option SnapResult) := .ok none
  serverSaveItems : Except JSError Nat := .ok 0

/-- JS truthiness of an optional string (`undefined`, `null` and `""` are
falsy). -/
def strTruthy : Option String → Bool
  | none => false
  | some s => s != ""

/-- The value of `this.sessionDetails.id` (`""` stands for the `undefined`
read off the empty object). -/
def sessionIdOf (s : PageSaving) : String :=
  match s.sessionDetails with
  | none => ""
  | some sess => sess.id

/-- `SITE_ACCESS_LIMIT_TRANSLATORS` (source lines 31-33). -/
def SITE_ACCESS_LIMIT_TRANSLATORS : List String :=
  ["57a00950-f0d1-4b41-b6ba-44ff0fc30289"]

/-- `this.translators.findIndex(t => t.translatorID === translatorID)`
together with the indexing `this.translators[translatorIndex]` in
`onTranslate`: returns the index and the translator found, or `none`. -/
def findTranslator : List Translator → String → Option (Nat × Translator)
  | [], _ => none
  | t :: ts, tid =>
    if t.translatorID == tid then some (0, t)
    else
      match findTranslator ts tid with
      | some (i, tr) => some (i + 1, tr)
      | none => none

/-- Whether the regex `/status code ([0-9]{3})/` matches at the head of the
character list, returning the captured three digits. -/
def statusCodeAt : List Char → Option String
  | 's' :: 't' :: 'a' :: 't' :: 'u' :: 's' :: ' ' :: 'c' :: 'o' :: 'd' :: 'e' :: ' ' ::
      d1 :: d2 :: d3 :: _ =>
    if d1.isDigit && d2.isDigit && d3.isDigit then some (String.mk [d1, d2, d3]) else none
  | _ => none

/-- `errorMessage.match(/status code ([0-9]{3})/)[1]`: the capture of the
leftmost match, or `none` when the regex does not match (in which case the JS
code keeps `statusCode = ""`). -/
def extractStatusCode : List Char → Option String
  | [] => none
  | c :: cs =>
    match statusCodeAt (c :: cs) with
    | some code => some code
    | none => extractStatusCode cs

/-- `_shouldReopenProgressWindow` (source lines 143-156). -/
def _shouldReopenProgressWindow (env : Env) (s : PageSaving) (translatorID : String)
    (options : SaveOptions) (itemType : Option String := none) : Bool :=
  match s.sessionDetails with
  | none => false
  | some sess =>
    sess.id != ""
      && env.href == sess.url
      && translatorID == sess.translatorID
      && itemType != some "multiple"
      && !(strTruthy options.note)
      && !options.resave

/-- The session object built by `_initSession`: a fresh random id, the
current document URL, and the translator id and options of the save
action. -/
def mkSession (env : Env) (translatorID : String) (saveOptions : SaveOptions) : Session :=
  { id := env.randomString
    url := env.href
    translatorID := translatorID
    saveOptions := some saveOptions }

/-- `_initSession` (source lines 128-137): stores a fresh session and returns
the generated session id. -/
def _initSession (env : Env) (s : PageSaving) (translatorID : String)
    (saveOptions : SaveOptions) : PageSaving × String :=
  ({ s with sessionDetails := some (mkSession env translatorID saveOptions) },
    env.randomString)

/-- `_clearSession` (source lines 139-141). -/
def _clearSession (s : PageSaving) : PageSaving :=
  { s with sessionDetails := none }

/-- The detection part of `onPageLoad` (source lines 113-125): the
`_initTranslate` plus `TranslateWeb.detect` call (a `.error` outcome models
either of them throwing, which the `try` block routes to `logError`), the
Safari PDF-frame early return, and the `onTranslators` notification with the
write of `this.translators`. -/
def onPageLoadDetect (env : Env) (s1 : PageSaving) : PageSaving × List Ev :=
  match env.detectResult with
  | .error e => (s1, [Ev.callDetect, Ev.logged e])
  | .ok translators =>
    if translators.isEmpty && env.isSafari && !env.isTopWindow && env.contentTypePdf then
      (s1, [Ev.callDetect, Ev.callOnPDFFrame])
    else
      ({ s1 with translators := translators },
        [Ev.callDetect, Ev.callOnTranslators translators.length])

/-- `onPageLoad` (source lines 95-126): the about:blank early return, the
unconditional session reset, the translator-cache check (return when the
cache is non-empty and `force` is falsy, discard it when `force` is truthy),
then detection. -/
def onPageLoad (env : Env) (s : PageSaving) (force : Bool) : PageSaving × List Ev :=
  if env.href == "about:blank" then (s, [])
  else
    let s0 : PageSaving := { s with sessionDetails := none }
    if !s0.translators.isEmpty && !force then (s0, [])
    else
      onPageLoadDetect env
        (if s0.translators.isEmpty then s0 else { s0 with translators := [] })

/-- The catch block of `saveAsWebpage` (source lines 416-448).  It never
touches `sessionDetails`, so it returns only the messages it sends and the
result (`.error e` models `throw e`; the successful server-side fallback
resolves with `undefined`, modelled `.ok none`).  An exception of the
server-side `itemSaver.saveAsWebpage()` call itself propagates out of the
catch block, modelled by the `.error e2` case. -/
def saveAsWebpageCatch (env : Env) (title : String) (e : JSError) :
    List Ev × Except JSError (Option SnapResult) :=
  if e.status == some 0 then
    if !env.contentTypePdf then
      match env.serverSaveItems with
      | .error e2 => ([Ev.callServerSave], .error e2)
      | .ok n =>
        (Ev.callServerSave ::
          ((if n != 0 then [Ev.msg (Msg.itemProgress none title (some 100))] else []) ++
            [Ev.msg (Msg.done true [])]), .ok none)
    else
      ([Ev.msg (Msg.done false ["clientRequired"])], .error e)
  else if (match e.value with | none => true | some le => le != some false) then
    ([Ev.msg (Msg.done false ["unexpectedError"])], .error e)
  else
    ([], .error e)

/-- The tail of the success path of `saveAsWebpage` (source lines 402-415):
the attachment progress messages, the final `progressWindow.done`, and the
`Object.assign(this.sessionDetails, {id, url, translatorID})`.  The assign
overwrites the three listed fields of the stored session and keeps
`saveOptions`; on an empty `sessionDetails` it produces a session without
`saveOptions`. -/
def saveAsWebpageFinish (env : Env) (s : PageSaving) (sid : String)
    (translatorID : String) (result : Option SnapResult) :
    PageSaving × List Ev × Except JSError (Option SnapResult) :=
  let attMsgs : List Ev :=
    match result with
    | some r =>
      match r.attachments with
      | some atts => atts.map (fun t => Ev.msg (Msg.itemProgress (some sid) t (some 100)))
      | none => []
    | none => []
  let newSess : Session :=
    match s.sessionDetails with
    | some sess =>
      { sess with id := sid, url := env.href, translatorID := translatorID }
    | none =>
      { id := sid
        url := env.href
        translatorID := translatorID
        saveOptions := none }
  ({ s with sessionDetails := some newSess },
    attMsgs ++ [Ev.msg (Msg.done true [])], .ok result)

/-- The condition of `if (!data.pdf && result && result.saveSingleFile)`
(source line 380): run SingleFile when the page is not a PDF and the truthy
`saveSnapshot` response asks for it. -/
def runSingleFile (env : Env) (result : Option SnapResult) : Bool :=
  !env.contentTypePdf && (match result with | some r => r.saveSingleFile | none => false)

/-- The remainder of the try block of `saveAsWebpage` after the `saveSnapshot`
connector call resolved (source lines 355-415): the success progress
messages, the optional SingleFile round trip (whose own connector call may
throw into the catch block), and the shared success tail
(`saveAsWebpageFinish`). -/
def saveAsWebpageAfterSnapshot (env : Env) (s : PageSaving) (sid : String)
    (title : String) (translatorID : String) (result : Option SnapResult) :
    PageSaving × List Ev × Except JSError (Option SnapResult) :=
  let msgs1 : List Ev :=
    [Ev.msg (Msg.sessionCreated sid),
      Ev.msg (Msg.itemProgress (some sid) title (some 100))]
  if runSingleFile env result then
    let sfMsgs : List Ev :=
      [Ev.msg (Msg.itemProgress (some sid) "Snapshot" (some 0))] ++
      (match env.singleFileData with
        | .ok _ => []
        | .error _ => [Ev.msg (Msg.itemProgress (some sid) "Snapshot" none)]) ++
      [Ev.callSaveSingleFile sid]
    match env.saveSingleFileResult with
    | .error e2 =>
      let c := saveAsWebpageCatch env title e2
      (s, msgs1 ++ sfMsgs ++ c.1, c.2)
    | .ok result2 =>
      let f := saveAsWebpageFinish env s sid translatorID result2
      (f.1,
        msgs1 ++ sfMsgs ++
          [Ev.msg (Msg.itemProgress (some sid) "Snapshot" (some 100))] ++ f.2.1,
        f.2.2)
  else
    let f := saveAsWebpageFinish env s sid translatorID result
    (f.1, msgs1 ++ f.2.1, f.2.2)

/-- `saveAsWebpage` (source lines 310-449).  `sessionIDOpt` is the
destructured `sessionID` argument (`none` models it absent); `titleOpt`
defaults to `document.title` and `snapshotOpt` to `true` exactly as the
destructuring defaults do.  A falsy `sessionID` (absent or empty string)
throws before any message is sent or any connector call is made. -/
def saveAsWebpage (env : Env) (s : PageSaving) (sessionIDOpt : Option String)
    (titleOpt : Option String) (snapshotOpt : Option Bool) :
    PageSaving × List Ev × Except JSError (Option SnapResult) :=
  let saveSnapshot := snapshotOpt.getD true
  let title := titleOpt.getD env.title
  let translatorID := "webpage" ++ (if saveSnapshot then "WithSnapshot" else "")
  if sessionIDOpt == none || sessionIDOpt == some "" then
    (s, [], .error { msg := "Trying to save as webpage without session ID" })
  else
    let sid := sessionIDOpt.getD ""
    let msgs0 : List Ev :=
      [Ev.msg (Msg.show sid),
        Ev.msg (Msg.itemProgress (some sid) title none),
        Ev.callSaveSnapshot sid (!saveSnapshot) env.contentTypePdf]
    match env.saveSnapshotResult with
    | .error e =>
      let c := saveAsWebpageCatch env title e
      (s, msgs0 ++ c.1, c.2)
    | .ok result =>
      let t := saveAsWebpageAfterSnapshot env s sid title translatorID result
      (t.1, msgs0 ++ t.2.1, t.2.2)

/-- The return value of `onTranslate`: `undefined`, the items resolved by
`translateAndSave`, or the result of the webpage fallback. -/
inductive OTResult where
  | undef
  | items (its : Items)
  | snap (r : Option SnapResult)
deriving DecidableEq, Repr

/-- The slice of the cached translator list handed to `translateAndSave`
(source lines 485-489): the list from the selected translator onward, cut to
the selected translator alone when `fallbackOnFailure` is not set. -/
def passedTranslators (s : PageSaving) (translatorIndex : Nat)
    (options : SaveOptions) : List Translator :=
  let translators := s.translators.drop translatorIndex
  if options.fallbackOnFailure then translators else translators.take 1

/-- The final `progressWindow.done` message of the no-fallback error branch
of `onTranslate` (source lines 509-521): the extracted status code together
with the site-access-limit translator set picks between the
"siteAccessLimits" payload and the plain failure payload. -/
def doneMsgFor (translator : Translator) (errorMessage : String) : Msg :=
  let statusCode := (extractStatusCode errorMessage.data).getD ""
  let isAccessLimitingTranslator :=
    SITE_ACCESS_LIMIT_TRANSLATORS.contains translator.translatorID
  if (isAccessLimitingTranslator && statusCode == "403") || statusCode == "429" then
    Msg.done false ["siteAccessLimits", translator.label]
  else
    Msg.done false []

/-- The try/catch block of `onTranslate` (source lines 484-523), entered after
the session has been initialised (state `s1`).  `allTs` is `this.translators`
(used by `at(-1)` for the fallback message), `passed` the slice handed to
`translateAndSave`.  The trace returned here follows the
`callTranslateAndSave` event recorded by `onTranslate`. -/
def onTranslateAttempt (env : Env) (s1 : PageSaving) (allTs : List Translator)
    (translator : Translator) (sessionID : String) (options : SaveOptions)
    (passed : List Translator) : PageSaving × List Ev × Except JSError OTResult :=
  match env.translateAndSaveResult passed with
  | .ok items => (s1, [Ev.msg (Msg.done true [])], .ok (OTResult.items items))
  | .error errorMessage =>
    if translator.itemType != some "multiple" && options.fallbackOnFailure then
      let lastLabel := match allTs.getLast? with | some t => t.label | none => ""
      let r := saveAsWebpage env s1 (some sessionID) none (some true)
      (r.1,
        Ev.msg (Msg.error "fallback" lastLabel "Save as Webpage") :: r.2.1,
        Except.map OTResult.snap r.2.2)
    else
      (_clearSession s1, [Ev.sessionClear, Ev.msg (doneMsgFor translator errorMessage)],
        .ok OTResult.undef)

/-- `onTranslate` (source lines 456-524).  A false `checkActionToServer`
returns `undefined` at once; an unknown `translatorID` makes the JS code read
`itemType` off `undefined`, modelled as a thrown TypeError. -/
def onTranslate (env : Env) (s : PageSaving) (translatorID : String)
    (options : SaveOptions) : PageSaving × List Ev × Except JSError OTResult :=
  if !env.serverOK then (s, [], .ok OTResult.undef)
  else
    match findTranslator s.translators translatorID with
    | none => (s, [], .error { msg := "TypeError: translator is undefined" })
    | some (translatorIndex, translator) =>
      if _shouldReopenProgressWindow env s translatorID options translator.itemType then
        (s, [Ev.msg (Msg.show (sessionIdOf s))], .ok OTResult.undef)
      else
        let r0 := _initSession env s translatorID options
        let sess : Session := mkSession env translatorID options
        let delay : Nat := if translator.itemType == some "multiple" then 100 else 0
        let passed := passedTranslators s translatorIndex options
        let k := onTranslateAttempt env r0.1 s.translators translator r0.2 options passed
        (k.1,
          Ev.sessionInit sess ::
            Ev.msg (Msg.showDelayed r0.2 delay) ::
            Ev.callTranslateAndSave r0.2 passed :: k.2.1,
          k.2.2)

/-- The translator id computed by `onSaveAsWebpage` (source line 533):
`"webpage" + (options.snapshot ? "WithSnapshot" : "")`. -/
def webpageTranslatorID (options : SaveOptions) : String :=
  "webpage" ++ (if options.snapshot == some true then "WithSnapshot" else "")

/-- `onSaveAsWebpage` (source lines 529-542). -/
def onSaveAsWebpage (env : Env) (s : PageSaving) (titleOpt : Option String)
    (options : SaveOptions) : PageSaving × List Ev × Except JSError (Option SnapResult) :=
  if !env.serverOK then (s, [], .ok none)
  else
    let title := titleOpt.getD env.title
    let translatorID := webpageTranslatorID options
    if _shouldReopenProgressWindow env s translatorID options none then
      (s, [Ev.msg (Msg.show (sessionIdOf s))], .ok none)
    else
      let r0 := _initSession env s translatorID options
      let sess : Session := mkSession env translatorID options
      let r := saveAsWebpage env r0.1 (some r0.2) (some title) options.snapshot
      (r.1, Ev.sessionInit sess :: r.2.1, r.2.2)

/-- The number of sessions held by the state: `sessionDetails` is a single
optional record, so this is 0 or 1. -/
def sessionCount (s : PageSaving) : Nat :=
  match s.sessionDetails with
  | none => 0
  | some _ => 1

/-- Whether `pat` is a prefix of the character list. -/
def startsWithChars : List Char → List Char → Bool
  | [], _ => true
  | _ :: _, [] => false
  | p :: ps, c :: cs => p == c && startsWithChars ps cs

/-- Whether `pat` occurs as a contiguous substring of the character list. -/
def containsChars (pat : List Char) : List Char → Bool
  | [] => startsWithChars pat []
  | c :: cs => startsWithChars pat (c :: cs) || containsChars pat cs

/-- Modelled from the spec words of claim C10, for comparison with the coded
classification: "the error message contains HTTP status code NNN", read as the
literal text "status code NNN" occurring anywhere in the message. -/
def specContainsStatusCode (msg code : String) : Bool :=
  containsChars ("status code " ++ code).data msg.data

/-! ### Concrete fixtures for witnesses and counterexamples -/

/-- A concrete single-item translator. -/
def tBook : Translator := { translatorID := "X1", label := "L1", itemType := some "book" }

/-- A concrete multiple-item translator. -/
def tMulti : Translator := { translatorID := "M1", label := "LM", itemType := some "multiple" }

/-- A concrete benign environment. -/
def envW : Env := { href := "https://example.org/page", title := "T", randomString := "r1r2r3r4" }

/-- A concrete state with two cached translators and no session. -/
def psW : PageSaving := { translators := [tBook, tMulti] }

/-- A concrete state holding both a session and a cached translator list. -/
def psFull : PageSaving :=
  { sessionDetails :=
      some { id := "sid1"
             url := "u"
             translatorID := "X1"
             saveOptions := some {} }
    translators := [tBook] }

/-- An environment sitting on about:blank. -/
def envAB : Env := { href := "about:blank" }

/-- An environment whose `saveSnapshot` connector call rejects with a plain
HTTP 500 error. -/
def envC2 : Env :=
  { href := "https://example.org/page", title := "T", randomString := "r1r2r3r4",
    saveSnapshotResult := .error { msg := "Error: failed", status := some 500 } }

/-- An environment whose translate-and-save pipeline rejects with an error
message containing two status codes; the leftmost regex match yields 403. -/
def envC10 : Env :=
  { href := "https://example.org/page", title := "T", randomString := "r1r2r3r4",
    translateAndSaveResult :=
      fun _ => .error "Error: status code 403 while fetching, then status code 429" }

/-- The GoogleScholar translator, whose id is in the site-access-limit set. -/
def tGS : Translator :=
  { translatorID := "57a00950-f0d1-4b41-b6ba-44ff0fc30289", label := "Google Scholar",
    itemType := some "journalArticle" }

/-- A state caching only the GoogleScholar translator. -/
def psGS : PageSaving := { translators := [tGS] }

/-- An environment whose translate-and-save pipeline rejects with a plain 403
error. -/
def env403 : Env :=
  { href := "https://example.org/page", title := "T", randomString := "r1r2r3r4",
    translateAndSaveResult := fun _ => .error "request failed with status code 403" }

/-! ### Helper lemmas -/

/-- `findIndex` followed by indexing: the drop at the found index starts with
the found translator. -/
theorem findTranslator_drop : ∀ (ts : List Translator) (tid : String) (i : Nat) (t : Translator),
    findTranslator ts tid = some (i, t) → ts.drop i = t :: ts.drop (i + 1) := by
  intro ts
  induction ts with
  | nil => intro tid i t h; simp [findTranslator] at h
  | cons t0 ts ih =>
    intro tid i t h
    rw [findTranslator] at h
    by_cases h0 : t0.translatorID == tid
    · simp [h0] at h
      rw [← h.1, ← h.2]
      simp
    · simp [h0] at h
      rcases hf : findTranslator ts tid with _ | ⟨j, tr⟩
      · rw [hf] at h; simp at h
      · rw [hf] at h
        simp at h
        rw [← h.1, ← h.2]
        simpa using ih tid j tr hf

/-- The catch block of `saveAsWebpage` records no `sessionInit` event. -/
theorem saveAsWebpageCatch_no_init (env : Env) (title : String) (e : JSError) (x : Session) :
    Ev.sessionInit x ∉ (saveAsWebpageCatch env title e).1 := by
  unfold saveAsWebpageCatch
  repeat' split
  all_goals simp_all

/-- The success tail of `saveAsWebpage` records no `sessionInit` event. -/
theorem saveAsWebpageFinish_no_init (env : Env) (s : PageSaving) (sid tid : String)
    (result : Option SnapResult) (x : Session) :
    Ev.sessionInit x ∉ (saveAsWebpageFinish env s sid tid result).2.1 := by
  unfold saveAsWebpageFinish
  repeat' split
  all_goals simp_all

/-- The post-snapshot part of `saveAsWebpage` records no `sessionInit`
event. -/
theorem saveAsWebpageAfterSnapshot_no_init (env : Env) (s : PageSaving)
    (sid title tid : String) (result : Option SnapResult) (x : Session) :
    Ev.sessionInit x ∉ (saveAsWebpageAfterSnapshot env s sid title tid result).2.1 := by
  unfold saveAsWebpageAfterSnapshot
  by_cases hc : runSingleFile env result = true
  · rcases h2 : env.saveSingleFileResult with e2 | result2 <;>
      rcases h3 : env.singleFileData with u | d <;>
        simp [hc, h2, h3, saveAsWebpageCatch_no_init, saveAsWebpageFinish_no_init]
  · simp [hc, saveAsWebpageFinish_no_init]

/-- `saveAsWebpage` never records a `sessionInit` event: only the two entry
points initialise a session. -/
theorem saveAsWebpage_no_init (env : Env) (s : PageSaving) (sidOpt : Option String)
    (titleOpt : Option String) (snapOpt : Option Bool) (x : Session) :
    Ev.sessionInit x ∉ (saveAsWebpage env s sidOpt titleOpt snapOpt).2.1 := by
  unfold saveAsWebpage
  by_cases hg : (sidOpt == none || sidOpt == some "") = true
  · simp [hg]
  · rcases h1 : env.saveSnapshotResult with e | result <;>
      simp [hg, h1, saveAsWebpageCatch_no_init, saveAsWebpageAfterSnapshot_no_init]

/-- With a non-empty session id, `saveAsWebpage` always reaches the
`saveSnapshot` connector call, with `skipSnapshot = !saveSnapshot`. -/
theorem saveAsWebpage_calls_snapshot (env : Env) (s : PageSaving) (sid : String)
    (titleOpt : Option String) (snapOpt : Option Bool) (h : sid ≠ "") :
    Ev.callSaveSnapshot sid (!snapOpt.getD true) env.contentTypePdf ∈
      (saveAsWebpage env s (some sid) titleOpt snapOpt).2.1 := by
  unfold saveAsWebpage
  have hg : ((some sid : Option String) == none || (some sid : Option String) == some "") = false := by
    simp [h]
  rcases h1 : env.saveSnapshotResult with e | result <;> simp [hg, h1, h]

/-- When the `saveSnapshot` connector call throws, `saveAsWebpage` leaves the
whole state (in particular `sessionDetails`) untouched. -/
theorem saveAsWebpage_state_of_snapErr (env : Env) (s : PageSaving) (sidOpt : Option String)
    (titleOpt : Option String) (snapOpt : Option Bool) (e : JSError)
    (he : env.saveSnapshotResult = .error e) :
    (saveAsWebpage env s sidOpt titleOpt snapOpt).1 = s := by
  unfold saveAsWebpage
  by_cases hg : (sidOpt == none || sidOpt == some "") = true <;> simp [hg, he]

/-- `saveAsWebpage` either leaves the state unchanged or stores a session: it
never clears an existing session. -/
theorem saveAsWebpage_session_cases (env : Env) (s : PageSaving) (sidOpt : Option String)
    (titleOpt : Option String) (snapOpt : Option Bool) :
    (saveAsWebpage env s sidOpt titleOpt snapOpt).1 = s ∨
      ∃ ns, (saveAsWebpage env s sidOpt titleOpt snapOpt).1.sessionDetails = some ns := by
  unfold saveAsWebpage saveAsWebpageAfterSnapshot saveAsWebpageFinish
  by_cases hg : (sidOpt == none || sidOpt == some "") = true
  · left; simp [hg]
  · rcases h1 : env.saveSnapshotResult with e | result
    · left; simp [hg, h1]
    · by_cases hc : runSingleFile env result = true
      · rcases h2 : env.saveSingleFileResult with e2 | result2
        · left; simp [hg, h1, hc, h2]
        · right; simp [hg, h1, hc, h2]
      · right; simp [hg, h1, hc]

/-- The detection part of `onPageLoad` never touches `sessionDetails`. -/
theorem onPageLoadDetect_session (env : Env) (s1 : PageSaving) :
    (onPageLoadDetect env s1).1.sessionDetails = s1.sessionDetails := by
  unfold onPageLoadDetect
  rcases hd : env.detectResult with e | ts
  · simp
  · by_cases hsf : (ts.isEmpty && env.isSafari && !env.isTopWindow && env.contentTypePdf) = true <;>
      simp [hsf]

/-- The detection part of `onPageLoad` always records the detection call. -/
theorem onPageLoadDetect_calls (env : Env) (s1 : PageSaving) :
    Ev.callDetect ∈ (onPageLoadDetect env s1).2 := by
  unfold onPageLoadDetect
  rcases hd : env.detectResult with e | ts
  · simp
  · by_cases hsf : (ts.isEmpty && env.isSafari && !env.isTopWindow && env.contentTypePdf) = true <;>
      simp [hsf]

/-- Reopen branch of `onTranslate`: with a matching session the call only
resends `progressWindow.show` for the stored id. -/
theorem onTranslate_reopen (env : Env) (s : PageSaving) (tid : String) (opts : SaveOptions)
    (i : Nat) (t : Translator)
    (hs : env.serverOK = true)
    (hf : findTranslator s.translators tid = some (i, t))
    (hr : _shouldReopenProgressWindow env s tid opts t.itemType = true) :
    onTranslate env s tid opts = (s, [Ev.msg (Msg.show (sessionIdOf s))], .ok OTResult.undef) := by
  unfold onTranslate
  simp [hs, hf, hr]

/-- Non-reopen branch of `onTranslate`: session initialisation, the delayed
show, the translate-and-save call, then the try/catch continuation. -/
theorem onTranslate_noreopen (env : Env) (s : PageSaving) (tid : String) (opts : SaveOptions)
    (i : Nat) (t : Translator)
    (hs : env.serverOK = true)
    (hf : findTranslator s.translators tid = some (i, t))
    (hr : _shouldReopenProgressWindow env s tid opts t.itemType = false) :
    onTranslate env s tid opts =
      (let k := onTranslateAttempt env (_initSession env s tid opts).1 s.translators t
          env.randomString opts (passedTranslators s i opts)
       (k.1,
         Ev.sessionInit (mkSession env tid opts) ::
           Ev.msg (Msg.showDelayed env.randomString
             (if t.itemType == some "multiple" then 100 else 0)) ::
           Ev.callTranslateAndSave env.randomString (passedTranslators s i opts) :: k.2.1,
         k.2.2)) := by
  unfold onTranslate
  simp [hs, hf, hr, _initSession]

/-- Reopen branch of `onSaveAsWebpage`. -/
theorem onSaveAsWebpage_reopen (env : Env) (s : PageSaving) (titleOpt : Option String)
    (opts : SaveOptions)
    (hs : env.serverOK = true)
    (hr : _shouldReopenProgressWindow env s (webpageTranslatorID opts) opts none = true) :
    onSaveAsWebpage env s titleOpt opts = (s, [Ev.msg (Msg.show (sessionIdOf s))], .ok none) := by
  unfold onSaveAsWebpage
  simp [hs, hr]

/-- Non-reopen branch of `onSaveAsWebpage`: session initialisation followed by
`saveAsWebpage` on the fresh session id. -/
theorem onSaveAsWebpage_noreopen (env : Env) (s : PageSaving) (titleOpt : Option String)
    (opts : SaveOptions)
    (hs : env.serverOK = true)
    (hr : _shouldReopenProgressWindow env s (webpageTranslatorID opts) opts none = false) :
    onSaveAsWebpage env s titleOpt opts =
      (let r := saveAsWebpage env (_initSession env s (webpageTranslatorID opts) opts).1
          (some env.randomString) (some (titleOpt.getD env.title)) opts.snapshot
       (r.1, Ev.sessionInit (mkSession env (webpageTranslatorID opts) opts) :: r.2.1, r.2.2)) := by
  unfold onSaveAsWebpage
  simp [hs, hr, _initSession]

/-- Successful translate-and-save branch of the try/catch block. -/
theorem onTranslateAttempt_ok (env : Env) (s1 : PageSaving) (allTs : List Translator)
    (t : Translator) (sid : String) (opts : SaveOptions) (passed : List Translator)
    (its : Items) (h : env.translateAndSaveResult passed = .ok its) :
    onTranslateAttempt env s1 allTs t sid opts passed =
      (s1, [Ev.msg (Msg.done true [])], .ok (OTResult.items its)) := by
  unfold onTranslateAttempt
  simp [h]

/-- Fallback branch of the try/catch block: the "fallback" error message and
the `saveAsWebpage` run with the same session id and snapshot enabled. -/
theorem onTranslateAttempt_fallback (env : Env) (s1 : PageSaving) (allTs : List Translator)
    (t : Translator) (sid : String) (opts : SaveOptions) (passed : List Translator)
    (em : String) (h : env.translateAndSaveResult passed = .error em)
    (hc : (t.itemType != some "multiple" && opts.fallbackOnFailure) = true) :
    onTranslateAttempt env s1 allTs t sid opts passed =
      (let r := saveAsWebpage env s1 (some sid) none (some true)
       (r.1,
         Ev.msg (Msg.error "fallback"
           (match allTs.getLast? with | some t2 => t2.label | none => "")
           "Save as Webpage") :: r.2.1,
         Except.map OTResult.snap r.2.2)) := by
  unfold onTranslateAttempt
  simp [h, hc]

/-- No-fallback error branch of the try/catch block: the session is cleared
and the classified `progressWindow.done` failure is sent. -/
theorem onTranslateAttempt_clear (env : Env) (s1 : PageSaving) (allTs : List Translator)
    (t : Translator) (sid : String) (opts : SaveOptions) (passed : List Translator)
    (em : String) (h : env.translateAndSaveResult passed = .error em)
    (hc : (t.itemType != some "multiple" && opts.fallbackOnFailure) = false) :
    onTranslateAttempt env s1 allTs t sid opts passed =
      (_clearSession s1, [Ev.sessionClear, Ev.msg (doneMsgFor t em)], .ok OTResult.undef) := by
  unfold onTranslateAttempt
  simp [h, hc]

/-! ### Claim theorems -/

/-- C5: every invocation of `onPageLoad` on a page whose location is not
about:blank resets `sessionDetails` to the empty session, regardless of the
`force` argument and of whether detection succeeds, fails, or is skipped. -/
theorem C5_onPageLoad_clears_session (env : Env) (s : PageSaving) (force : Bool)
    (h : env.href ≠ "about:blank") :
    (onPageLoad env s force).1.sessionDetails = none := by
  unfold onPageLoad
  have hg : (env.href == "about:blank") = false := by simp [h]
  cases force <;> by_cases h2 : s.translators.isEmpty = true <;>
    simp [hg, h2, onPageLoadDetect_session]

/-- Witness for C5 at a concrete input. -/
theorem C5_witness :
    envW.href ≠ "about:blank" ∧ (onPageLoad envW psW false).1.sessionDetails = none :=
  ⟨by decide, C5_onPageLoad_clears_session envW psW false (by decide)⟩

/-- C9: when the document location is about:blank, `onPageLoad` returns
immediately: the state (both `sessionDetails` and the cached translator list)
is unchanged and nothing is sent or called. -/
theorem C9_about_blank_noop (env : Env) (s : PageSaving) (force : Bool)
    (h : env.href = "about:blank") :
    onPageLoad env s force = (s, []) := by
  unfold onPageLoad
  simp [h]

/-- Witness for C9 at a concrete input (a state holding both a session and a
cached translator list, both preserved). -/
theorem C9_witness :
    envAB.href = "about:blank" ∧ onPageLoad envAB psFull true = (psFull, []) :=
  ⟨rfl, C9_about_blank_noop envAB psFull true rfl⟩

/-- C8: `saveAsWebpage` with a falsy session id (absent or empty) throws the
"Trying to save as webpage without session ID" error, with an empty trace (no
progress message, no connector call) and the state unchanged. -/
theorem C8_falsy_sessionID_throws (env : Env) (s : PageSaving) (titleOpt : Option String)
    (snapOpt : Option Bool) :
    saveAsWebpage env s none titleOpt snapOpt =
      (s, [], .error { msg := "Trying to save as webpage without session ID" }) ∧
    saveAsWebpage env s (some "") titleOpt snapOpt =
      (s, [], .error { msg := "Trying to save as webpage without session ID" }) := by
  constructor <;> (unfold saveAsWebpage; simp)

/-- C7: `sessionDetails` always holds at most one session, every operation of
the module preserves this, and `_initSession` replaces whatever session was
there with exactly the new one (its result does not depend on the previous
session). -/
theorem C7_at_most_one_session (env : Env) (s : PageSaving) (force : Bool)
    (tid : String) (opts : SaveOptions) (titleOpt sidOpt : Option String)
    (snapOpt : Option Bool) :
    sessionCount (onPageLoad env s force).1 ≤ 1 ∧
    sessionCount (onTranslate env s tid opts).1 ≤ 1 ∧
    sessionCount (onSaveAsWebpage env s titleOpt opts).1 ≤ 1 ∧
    sessionCount (saveAsWebpage env s sidOpt titleOpt snapOpt).1 ≤ 1 ∧
    sessionCount (_initSession env s tid opts).1 ≤ 1 ∧
    sessionCount (_clearSession s) ≤ 1 ∧
    (_initSession env s tid opts).1.sessionDetails =
      some { id := env.randomString, url := env.href, translatorID := tid,
             saveOptions := some opts } := by
  have hle : ∀ st : PageSaving, sessionCount st ≤ 1 := by
    intro st
    unfold sessionCount
    rcases st.sessionDetails with _ | _ <;> simp
  exact ⟨hle _, hle _, hle _, hle _, hle _, hle _, rfl⟩

/-- C3: on a non-about:blank page, a non-empty cached translator list short
circuits `onPageLoad` unless `force` is set: with `force` falsy the call
returns after the session reset with no detection and the cache unchanged;
with `force` truthy detection runs again and (when it succeeds) the cache
holds exactly the newly detected translators. -/
theorem C3_translator_cache (env : Env) (s : PageSaving) (force : Bool)
    (h : env.href ≠ "about:blank") :
    (s.translators ≠ [] → force = false →
      onPageLoad env s force = ({ s with sessionDetails := none }, [])) ∧
    (s.translators ≠ [] → force = true →
      Ev.callDetect ∈ (onPageLoad env s true).2 ∧
      ∀ ts, env.detectResult = .ok ts → (onPageLoad env s true).1.translators = ts) := by
  have hg : (env.href == "about:blank") = false := by simp [h]
  constructor
  · intro hne hforce
    subst hforce
    have h1 : s.translators.isEmpty = false := by
      simp [List.isEmpty_iff, hne]
    unfold onPageLoad
    simp [hg, h1]
  · intro hne hforce
    subst hforce
    have h1 : s.translators.isEmpty = false := by
      simp [List.isEmpty_iff, hne]
    unfold onPageLoad
    simp only [hg, h1]
    constructor
    · simpa [h1] using
        onPageLoadDetect_calls env { s with sessionDetails := none, translators := [] }
    · intro ts hd
      unfold onPageLoadDetect
      by_cases hsf : (ts.isEmpty && env.isSafari && !env.isTopWindow && env.contentTypePdf) = true
      · have hts : ts = [] := by
          have := hsf
          simp only [Bool.and_eq_true] at this
          exact List.isEmpty_iff.mp this.1.1.1
        subst hts
        simp only [hd, h1]
        repeat' split
        all_goals simp_all
      · simp [hd, hsf, h1]

/-- Witness for C3 at concrete inputs (non-empty cache; a successful forced
detection returning one translator). -/
theorem C3_witness :
    envW.href ≠ "about:blank" ∧ psW.translators ≠ [] ∧
    onPageLoad envW psW false = ({ psW with sessionDetails := none }, []) ∧
    (Ev.callDetect ∈ (onPageLoad { envW with detectResult := .ok [tBook] } psW true).2 ∧
      (onPageLoad { envW with detectResult := .ok [tBook] } psW true).1.translators = [tBook]) := by
  refine ⟨by decide, by decide, ?_, ?_, ?_⟩
  · exact (C3_translator_cache envW psW false (by decide)).1 (by decide) rfl
  · exact ((C3_translator_cache { envW with detectResult := .ok [tBook] } psW true
      (by decide)).2 (by decide) rfl).1
  · exact ((C3_translator_cache { envW with detectResult := .ok [tBook] } psW true
      (by decide)).2 (by decide) rfl).2 [tBook] rfl

/-- C1: for `onTranslate` and `onSaveAsWebpage` (once the initial
`checkActionToServer` permission check has passed), the existing progress
window is reopened — `progressWindow.show` is sent with the stored session id
and no new session is initialised — exactly when `_shouldReopenProgressWindow`
holds: a session exists, the current URL equals the stored one, the requested
translator id equals the stored one, the selected item type is not
"multiple", and the options carry neither `note` nor `resave`.  In every
other case a fresh session is initialised and the save runs again. -/
theorem C1_reopen_iff (env : Env) (s : PageSaving) (tid : String) (opts : SaveOptions)
    (i : Nat) (t : Translator) (titleOpt : Option String)
    (hs : env.serverOK = true)
    (hf : findTranslator s.translators tid = some (i, t))
    (hrand : env.randomString ≠ "") :
    ((Ev.msg (Msg.show (sessionIdOf s)) ∈ (onTranslate env s tid opts).2.1 ∧
        ∀ x, Ev.sessionInit x ∉ (onTranslate env s tid opts).2.1) ↔
      _shouldReopenProgressWindow env s tid opts t.itemType = true) ∧
    (_shouldReopenProgressWindow env s tid opts t.itemType = false →
      Ev.sessionInit (mkSession env tid opts) ∈ (onTranslate env s tid opts).2.1 ∧
      Ev.callTranslateAndSave env.randomString (passedTranslators s i opts) ∈
        (onTranslate env s tid opts).2.1) ∧
    ((Ev.msg (Msg.show (sessionIdOf s)) ∈ (onSaveAsWebpage env s titleOpt opts).2.1 ∧
        ∀ x, Ev.sessionInit x ∉ (onSaveAsWebpage env s titleOpt opts).2.1) ↔
      _shouldReopenProgressWindow env s (webpageTranslatorID opts) opts none = true) ∧
    (_shouldReopenProgressWindow env s (webpageTranslatorID opts) opts none = false →
      Ev.sessionInit (mkSession env (webpageTranslatorID opts) opts) ∈
        (onSaveAsWebpage env s titleOpt opts).2.1 ∧
      Ev.callSaveSnapshot env.randomString (!opts.snapshot.getD true) env.contentTypePdf ∈
        (onSaveAsWebpage env s titleOpt opts).2.1) := by
  refine ⟨?_, ?_, ?_, ?_⟩
  · by_cases hr : _shouldReopenProgressWindow env s tid opts t.itemType = true
    · rw [onTranslate_reopen env s tid opts i t hs hf hr]
      simp [hr]
    · have hr0 : _shouldReopenProgressWindow env s tid opts t.itemType = false :=
        Bool.eq_false_iff.mpr hr
      have hmem : Ev.sessionInit (mkSession env tid opts) ∈ (onTranslate env s tid opts).2.1 := by
        rw [onTranslate_noreopen env s tid opts i t hs hf hr0]
        simp
      constructor
      · rintro ⟨-, hnone⟩
        exact absurd hmem (hnone _)
      · intro hcontra
        rw [hr0] at hcontra
        simp at hcontra
  · intro hr0
    rw [onTranslate_noreopen env s tid opts i t hs hf hr0]
    constructor <;> simp
  · by_cases hr : _shouldReopenProgressWindow env s (webpageTranslatorID opts) opts none = true
    · rw [onSaveAsWebpage_reopen env s titleOpt opts hs hr]
      simp [hr]
    · have hr0 : _shouldReopenProgressWindow env s (webpageTranslatorID opts) opts none = false :=
        Bool.eq_false_iff.mpr hr
      have hmem : Ev.sessionInit (mkSession env (webpageTranslatorID opts) opts) ∈
          (onSaveAsWebpage env s titleOpt opts).2.1 := by
        rw [onSaveAsWebpage_noreopen env s titleOpt opts hs hr0]
        simp
      constructor
      · rintro ⟨-, hnone⟩
        exact absurd hmem (hnone _)
      · intro hcontra
        rw [hr0] at hcontra
        simp at hcontra
  · intro hr0
    rw [onSaveAsWebpage_noreopen env s titleOpt opts hs hr0]
    constructor
    · simp
    · have hsnap := saveAsWebpage_calls_snapshot env
        (_initSession env s (webpageTranslatorID opts) opts).1 env.randomString
        (some (titleOpt.getD env.title)) opts.snapshot hrand
      simp only [List.mem_cons]
      exact Or.inr hsnap

/-- Witness for C1 at concrete inputs: a fresh page (no session) does not
reopen, initialises the fresh session and runs the save. -/
theorem C1_witness :
    envW.serverOK = true ∧
    findTranslator psW.translators "X1" = some (0, tBook) ∧
    envW.randomString ≠ "" ∧
    (Ev.sessionInit (mkSession envW "X1" {}) ∈ (onTranslate envW psW "X1" {}).2.1 ∧
      Ev.callTranslateAndSave envW.randomString (passedTranslators psW 0 {}) ∈
        (onTranslate envW psW "X1" {}).2.1) :=
  ⟨rfl, by decide, by decide,
    (C1_reopen_iff envW psW "X1" {} 0 tBook (some "T") rfl (by decide) (by decide)).2.1
      (by decide)⟩

/-- C4: when translate-and-save throws inside `onTranslate`, the selected
translator is not a "multiple" one and `fallbackOnFailure` is set, the
"fallback" progress error is sent and `saveAsWebpage` runs with the same
session id and snapshot enabled; when `fallbackOnFailure` is not set, only
the selected translator is handed to translate-and-save and no webpage
fallback (no `saveSnapshot` connector call) occurs. -/
theorem C4_webpage_fallback (env : Env) (s : PageSaving) (tid : String) (opts : SaveOptions)
    (i : Nat) (t : Translator)
    (hs : env.serverOK = true)
    (hf : findTranslator s.translators tid = some (i, t))
    (hr : _shouldReopenProgressWindow env s tid opts t.itemType = false)
    (hrand : env.randomString ≠ "") :
    (∀ em, env.translateAndSaveResult (passedTranslators s i opts) = .error em →
      t.itemType ≠ some "multiple" → opts.fallbackOnFailure = true →
      (∃ lbl, Ev.msg (Msg.error "fallback" lbl "Save as Webpage") ∈
        (onTranslate env s tid opts).2.1) ∧
      Ev.callSaveSnapshot env.randomString false env.contentTypePdf ∈
        (onTranslate env s tid opts).2.1) ∧
    (opts.fallbackOnFailure = false →
      Ev.callTranslateAndSave env.randomString [t] ∈ (onTranslate env s tid opts).2.1 ∧
      ∀ sid skip pdf, Ev.callSaveSnapshot sid skip pdf ∉ (onTranslate env s tid opts).2.1) := by
  constructor
  · intro em herr hmul hfb
    have hc : (t.itemType != some "multiple" && opts.fallbackOnFailure) = true := by
      simp [hmul, hfb]
    rw [onTranslate_noreopen env s tid opts i t hs hf hr]
    simp only
    rw [onTranslateAttempt_fallback env (_initSession env s tid opts).1 s.translators t
      env.randomString opts (passedTranslators s i opts) em herr hc]
    constructor
    · refine ⟨match s.translators.getLast? with | some t2 => t2.label | none => "", ?_⟩
      simp
    · have hsnap := saveAsWebpage_calls_snapshot env (_initSession env s tid opts).1
        env.randomString none (some true) hrand
      simp only [Option.getD, Bool.not_true] at hsnap
      simp only [List.mem_cons]
      exact Or.inr (Or.inr (Or.inr (Or.inr hsnap)))
  · intro hfb
    have hdrop := findTranslator_drop s.translators tid i t hf
    have hpassed : passedTranslators s i opts = [t] := by
      unfold passedTranslators
      simp [hfb, hdrop]
    constructor
    · rw [onTranslate_noreopen env s tid opts i t hs hf hr, hpassed]
      simp
    · intro sid skip pdf
      rw [onTranslate_noreopen env s tid opts i t hs hf hr]
      rcases ho : env.translateAndSaveResult (passedTranslators s i opts) with em | its
      · rw [onTranslateAttempt_clear env (_initSession env s tid opts).1 s.translators t
          env.randomString opts (passedTranslators s i opts) em ho (by simp [hfb])]
        simp
      · rw [onTranslateAttempt_ok env (_initSession env s tid opts).1 s.translators t
          env.randomString opts (passedTranslators s i opts) its ho]
        simp

/-- Witness for C4 at concrete inputs: one run with the fallback taken, one
run with `fallbackOnFailure` unset. -/
theorem C4_witness :
    (let envF : Env := { envW with translateAndSaveResult := fun _ => .error "boom" }
     (∃ lbl, Ev.msg (Msg.error "fallback" lbl "Save as Webpage") ∈
        (onTranslate envF psW "X1" { fallbackOnFailure := true }).2.1) ∧
      Ev.callSaveSnapshot envF.randomString false envF.contentTypePdf ∈
        (onTranslate envF psW "X1" { fallbackOnFailure := true }).2.1) ∧
    (Ev.callTranslateAndSave envW.randomString [tBook] ∈ (onTranslate envW psW "X1" {}).2.1 ∧
      ∀ sid skip pdf, Ev.callSaveSnapshot sid skip pdf ∉ (onTranslate envW psW "X1" {}).2.1) := by
  constructor
  · exact (C4_webpage_fallback { envW with translateAndSaveResult := fun _ => .error "boom" }
      psW "X1" { fallbackOnFailure := true } 0 tBook rfl (by decide) (by decide) (by decide)).1
      "boom" rfl (by decide) rfl
  · exact (C4_webpage_fallback envW psW "X1" {} 0 tBook rfl (by decide) (by decide)
      (by decide)).2 rfl

/-- C6: every save that does not reopen the existing progress window stores,
through `_initSession`, a session with exactly the fields id (the freshly
generated random string, which `_initSession` returns to its caller and which
becomes the session id of the ensuing save), url (the current document URL),
translatorID and saveOptions (the arguments of the save action); and this is
the only session initialisation of the run. -/
theorem C6_session_fields (env : Env) (s : PageSaving) (tid : String) (opts : SaveOptions)
    (i : Nat) (t : Translator) (titleOpt : Option String)
    (hs : env.serverOK = true)
    (hf : findTranslator s.translators tid = some (i, t))
    (hr1 : _shouldReopenProgressWindow env s tid opts t.itemType = false)
    (hr2 : _shouldReopenProgressWindow env s (webpageTranslatorID opts) opts none = false) :
    _initSession env s tid opts =
      ({ s with sessionDetails := some (mkSession env tid opts) }, env.randomString) ∧
    mkSession env tid opts =
      { id := env.randomString, url := env.href, translatorID := tid, saveOptions := some opts } ∧
    (Ev.sessionInit (mkSession env tid opts) ∈ (onTranslate env s tid opts).2.1 ∧
      ∀ x, Ev.sessionInit x ∈ (onTranslate env s tid opts).2.1 → x = mkSession env tid opts) ∧
    (Ev.sessionInit (mkSession env (webpageTranslatorID opts) opts) ∈
        (onSaveAsWebpage env s titleOpt opts).2.1 ∧
      ∀ x, Ev.sessionInit x ∈ (onSaveAsWebpage env s titleOpt opts).2.1 →
        x = mkSession env (webpageTranslatorID opts) opts) := by
  refine ⟨rfl, rfl, ⟨?_, ?_⟩, ⟨?_, ?_⟩⟩
  · rw [onTranslate_noreopen env s tid opts i t hs hf hr1]
    simp
  · intro x hx
    rw [onTranslate_noreopen env s tid opts i t hs hf hr1] at hx
    simp only [List.mem_cons] at hx
    rcases hx with hx | hx | hx | hx
    · exact (Ev.sessionInit.injEq .. ▸ hx : x = mkSession env tid opts)
    · simp at hx
    · simp at hx
    · rcases ho : env.translateAndSaveResult (passedTranslators s i opts) with em | its
      · by_cases hc : (t.itemType != some "multiple" && opts.fallbackOnFailure) = true
        · rw [onTranslateAttempt_fallback env (_initSession env s tid opts).1 s.translators t
            env.randomString opts (passedTranslators s i opts) em ho hc] at hx
          simp only [List.mem_cons] at hx
          rcases hx with hx | hx
          · simp at hx
          · exact absurd hx (saveAsWebpage_no_init env (_initSession env s tid opts).1
              (some env.randomString) none (some true) x)
        · rw [onTranslateAttempt_clear env (_initSession env s tid opts).1 s.translators t
            env.randomString opts (passedTranslators s i opts) em ho
            (Bool.eq_false_iff.mpr hc)] at hx
          simp at hx
      · rw [onTranslateAttempt_ok env (_initSession env s tid opts).1 s.translators t
          env.randomString opts (passedTranslators s i opts) its ho] at hx
        simp at hx
  · rw [onSaveAsWebpage_noreopen env s titleOpt opts hs hr2]
    simp
  · intro x hx
    rw [onSaveAsWebpage_noreopen env s titleOpt opts hs hr2] at hx
    simp only [List.mem_cons] at hx
    rcases hx with hx | hx
    · exact (Ev.sessionInit.injEq .. ▸ hx : x = mkSession env (webpageTranslatorID opts) opts)
    · exact absurd hx (saveAsWebpage_no_init env
        (_initSession env s (webpageTranslatorID opts) opts).1
        (some env.randomString) (some (titleOpt.getD env.title)) opts.snapshot x)

/-- Witness for C6 at concrete inputs. -/
theorem C6_witness :
    envW.serverOK = true ∧
    findTranslator psW.translators "X1" = some (0, tBook) ∧
    mkSession envW "X1" {} =
      { id := envW.randomString, url := envW.href, translatorID := "X1",
        saveOptions := some {} } ∧
    Ev.sessionInit (mkSession envW "X1" {}) ∈ (onTranslate envW psW "X1" {}).2.1 ∧
    Ev.sessionInit (mkSession envW (webpageTranslatorID {}) {}) ∈
      (onSaveAsWebpage envW psW (some "T") {}).2.1 := by
  have h := C6_session_fields envW psW "X1" {} 0 tBook (some "T") rfl (by decide)
    (by decide) (by decide)
  exact ⟨rfl, by decide, h.2.1, h.2.2.1.1, h.2.2.2.1⟩

/-- C2 counterexample: with a concrete environment whose `saveSnapshot`
connector call rejects with an HTTP 500 error, `onSaveAsWebpage` rethrows the
error, yet `sessionDetails` still holds the session created for the save —
the claim that a failing save always clears the session state is false. -/
theorem C2_counterexample :
    (onSaveAsWebpage envC2 {} (some "T") {}).2.2 =
      .error { msg := "Error: failed", status := some 500 } ∧
    (onSaveAsWebpage envC2 {} (some "T") {}).1.sessionDetails =
      some { id := "r1r2r3r4", url := "https://example.org/page", translatorID := "webpage",
             saveOptions := some {} } := by
  constructor
  · rfl
  · decide

/-- C2 (amended): when translate-and-save throws inside `onTranslate` and the
webpage fallback is not taken, the session is cleared; when the fallback is
taken the session survives; and a failing `saveSnapshot` connector call
leaves the state of `saveAsWebpage` — including the stored session —
entirely unchanged rather than clearing it. -/
theorem C2_amended_clearing (env : Env) (s : PageSaving) (tid : String) (opts : SaveOptions)
    (i : Nat) (t : Translator) (em : String) (e : JSError)
    (sidOpt titleOpt : Option String) (snapOpt : Option Bool)
    (hs : env.serverOK = true)
    (hf : findTranslator s.translators tid = some (i, t))
    (hr : _shouldReopenProgressWindow env s tid opts t.itemType = false)
    (herr : env.translateAndSaveResult (passedTranslators s i opts) = .error em)
    (hsnap : env.saveSnapshotResult = .error e) :
    ((t.itemType != some "multiple" && opts.fallbackOnFailure) = false →
      (onTranslate env s tid opts).1.sessionDetails = none) ∧
    ((t.itemType != some "multiple" && opts.fallbackOnFailure) = true →
      (onTranslate env s tid opts).1.sessionDetails ≠ none) ∧
    (saveAsWebpage env s sidOpt titleOpt snapOpt).1 = s := by
  refine ⟨?_, ?_, saveAsWebpage_state_of_snapErr env s sidOpt titleOpt snapOpt e hsnap⟩
  · intro hc
    rw [onTranslate_noreopen env s tid opts i t hs hf hr]
    simp only
    rw [onTranslateAttempt_clear env (_initSession env s tid opts).1 s.translators t
      env.randomString opts (passedTranslators s i opts) em herr hc]
    rfl
  · intro hc
    rw [onTranslate_noreopen env s tid opts i t hs hf hr]
    simp only
    rw [onTranslateAttempt_fallback env (_initSession env s tid opts).1 s.translators t
      env.randomString opts (passedTranslators s i opts) em herr hc]
    simp only
    rcases saveAsWebpage_session_cases env (_initSession env s tid opts).1
        (some env.randomString) none (some true) with hcase | ⟨ns, hcase⟩
    · rw [hcase]
      simp [_initSession]
    · rw [hcase]
      simp

/-- Witness for C2 (amended) at concrete inputs: the environment fails both
the translate-and-save pipeline and the snapshot connector call. -/
theorem C2_witness :
    (let envF : Env := { envC2 with translateAndSaveResult := fun _ => .error "boom" }
     (onTranslate envF psW "X1" {}).1.sessionDetails = none ∧
       (saveAsWebpage envF psW (some "sid9") (some "T") (some true)).1 = psW) := by
  have h := C2_amended_clearing { envC2 with translateAndSaveResult := fun _ => .error "boom" }
    psW "X1" {} 0 tBook "boom" { msg := "Error: failed", status := some 500 }
    (some "sid9") (some "T") (some true) rfl (by decide) (by decide) rfl rfl
  exact ⟨h.1 (by decide), h.2.2⟩

/-- C10 counterexample: a failing translation whose error message contains
the text "status code 429" (after an earlier "status code 403") for a
translator outside the site-access-limit set.  The claim predicts the
"siteAccessLimits" done message because the message contains status code 429;
the code extracts only the leftmost match (403) and sends the plain failure
instead. -/
theorem C10_counterexample :
    specContainsStatusCode
      "Error: status code 403 while fetching, then status code 429" "429" = true ∧
    SITE_ACCESS_LIMIT_TRANSLATORS.contains tBook.translatorID = false ∧
    Ev.msg (Msg.done false ["siteAccessLimits", tBook.label]) ∉
      (onTranslate envC10 psW "X1" {}).2.1 ∧
    Ev.msg (Msg.done false []) ∈ (onTranslate envC10 psW "X1" {}).2.1 := by
  refine ⟨by decide, by decide, by decide, by decide⟩

/-- C10 (amended): in a failing `onTranslate` with no webpage fallback, the
"siteAccessLimits" done message is sent exactly when the leftmost
"status code NNN" regex match of the error message yields 403 and the
selected translator is in the site-access-limit set, or the leftmost match
yields 429; in every other such failure the plain failure done message is
sent. -/
theorem C10_siteAccessLimits (env : Env) (s : PageSaving) (tid : String) (opts : SaveOptions)
    (i : Nat) (t : Translator) (em : String)
    (hs : env.serverOK = true)
    (hf : findTranslator s.translators tid = some (i, t))
    (hr : _shouldReopenProgressWindow env s tid opts t.itemType = false)
    (herr : env.translateAndSaveResult (passedTranslators s i opts) = .error em)
    (hnf : (t.itemType != some "multiple" && opts.fallbackOnFailure) = false) :
    (Ev.msg (Msg.done false ["siteAccessLimits", t.label]) ∈ (onTranslate env s tid opts).2.1 ↔
      ((SITE_ACCESS_LIMIT_TRANSLATORS.contains t.translatorID &&
          ((extractStatusCode em.data).getD "" == "403")) ||
        ((extractStatusCode em.data).getD "" == "429")) = true) ∧
    (((SITE_ACCESS_LIMIT_TRANSLATORS.contains t.translatorID &&
          ((extractStatusCode em.data).getD "" == "403")) ||
        ((extractStatusCode em.data).getD "" == "429")) = false →
      Ev.msg (Msg.done false []) ∈ (onTranslate env s tid opts).2.1) := by
  rw [onTranslate_noreopen env s tid opts i t hs hf hr]
  simp only
  rw [onTranslateAttempt_clear env (_initSession env s tid opts).1 s.translators t
    env.randomString opts (passedTranslators s i opts) em herr hnf]
  by_cases hcond : ((SITE_ACCESS_LIMIT_TRANSLATORS.contains t.translatorID &&
      ((extractStatusCode em.data).getD "" == "403")) ||
    ((extractStatusCode em.data).getD "" == "429")) = true
  · have hdone : doneMsgFor t em = Msg.done false ["siteAccessLimits", t.label] := by
      unfold doneMsgFor
      simp only [hcond, if_true]
    rw [hdone]
    constructor
    · constructor
      · intro _
        exact hcond
      · intro _
        simp
    · intro hcontra
      rw [hcontra] at hcond
      simp at hcond
  · have hcond0 := Bool.eq_false_iff.mpr hcond
    have hdone : doneMsgFor t em = Msg.done false [] := by
      unfold doneMsgFor
      simp only [hcond0]
      simp
    rw [hdone]
    constructor
    · constructor
      · intro hmem
        simp at hmem
      · intro hcontra
        rw [hcontra] at hcond0
        simp at hcond0
    · intro hc
      simp

/-- Witness for C10 (amended): a GoogleScholar failure whose message has
leftmost status code 403 produces the "siteAccessLimits" done message, and a
non-limited translator with the same message produces the plain failure. -/
theorem C10_witness :
    Ev.msg (Msg.done false ["siteAccessLimits", tGS.label]) ∈
      (onTranslate env403 psGS tGS.translatorID {}).2.1 ∧
    Ev.msg (Msg.done false []) ∈ (onTranslate env403 psW "X1" {}).2.1 := by
  constructor
  · exact ((C10_siteAccessLimits env403 psGS tGS.translatorID {} 0 tGS
      "request failed with status code 403" rfl (by decide) (by decide) rfl
      (by decide)).1).mpr (by decide)
  · exact (C10_siteAccessLimits env403 psW "X1" {} 0 tBook
      "request failed with status code 403" rfl (by decide) (by decide) rfl
      (by decide)).2 (by decide)
